import Mathlib

/-!
Shallow embedding of the tenant isolation and schema-lifecycle subsystem of
the optera backend (NestJS/TypeORM). The embedded code:

  * `src/tenants/entities/tenant.entity.ts` — the `Tenant` record and
    `TenantStatus` enumeration;
  * `src/tenants/services/tenants.service.ts` — `TenantsService.create`,
    `update`, `suspend`, `activate`, `remove`, `findOne`;
  * `src/common/services/tenant.service.ts` — `TenantService.findById`;
  * `src/common/guards/tenant.guard.ts` — `TenantGuard.canActivate`;
  * `src/database/services/tenant-connection.service.ts` —
    `TenantConnectionService.getTenantConnection`, `dropTenantSchema`,
    `closeTenantConnection`.

The tenant directory (the `tenants` table behind the TypeORM repository) is
a list of records plus a fresh-id counter; repository calls become pure
state transformers.  Schema DDL and physical connection initialization are
external effects; their success or failure enters as an explicit boolean
oracle argument, and thrown exceptions become result constructors.  TypeORM
`findOne` excludes soft-deleted rows, `softDelete` stamps `deletedAt`,
`delete` removes the row, `save` on an entity that has an id updates the
row in place.
-/

/-- The `TenantStatus` enum of `tenant.entity.ts`. -/
inductive TenantStatus
  | active
  | inactive
  | suspended
  | pending
  deriving DecidableEq, Repr

/-- The `Tenant` entity, restricted to the columns the embedded operations
read or write: identity, unique handles, derived schema name, status, the
usability flag, and the soft-deletion timestamp from the base entity.  The
quota, profile and subscription columns are carried attributes untouched by
the embedded code paths and are omitted. -/
structure Tenant where
  id : Nat
  name : String
  subdomain : String
  domain : Option String
  schemaName : String
  status : TenantStatus
  isActive : Bool
  deletedAt : Option Nat
  deriving DecidableEq, Repr

/-- The `tenants` table behind the TypeORM repository: the stored rows plus
a counter supplying fresh primary keys for inserts. -/
structure Directory where
  tenants : List Tenant
  nextId : Nat
  deriving DecidableEq, Repr

/-- TypeORM `findOne({ where: { id } })`: first row with the given id that
is not soft-deleted. -/
def Directory.findOne (dir : Directory) (id : Nat) : Option Tenant :=
  dir.tenants.find? (fun t => t.deletedAt == none && t.id == id)

/-- TypeORM `save` on an entity that already has an id: replace the stored
row with that id. -/
def Directory.saveExisting (dir : Directory) (t : Tenant) : Directory :=
  { dir with tenants := dir.tenants.map (fun u => if u.id == t.id then t else u) }

/-- TypeORM `delete(id)`: hard-remove the row. -/
def Directory.deleteById (dir : Directory) (id : Nat) : Directory :=
  { dir with tenants := dir.tenants.filter (fun u => u.id != id) }

/-- TypeORM `softDelete(id)`: stamp `deletedAt` on the not-yet-deleted row. -/
def Directory.softDeleteById (dir : Directory) (id : Nat) (now : Nat) : Directory :=
  { dir with
    tenants := dir.tenants.map (fun u =>
      if u.id == id && u.deletedAt == none then { u with deletedAt := some now } else u) }

/-- Well-formedness of the id supply: every stored row has an id below the
fresh-id counter, so an insert never collides with an existing row. -/
def Directory.freshIds (dir : Directory) : Prop :=
  ∀ t ∈ dir.tenants, t.id < dir.nextId

/-- Stored rows have pairwise distinct ids. -/
def Directory.idsNodup (dir : Directory) : Prop :=
  (dir.tenants.map (fun t => t.id)).Nodup

/-- `CreateTenantDto` restricted to the fields `TenantsService.create`
reads: `name`, `subdomain`, and the optional `domain`. -/
structure CreateTenantDto where
  name : String
  subdomain : String
  domain : Option String
  deriving DecidableEq, Repr

/-- The `findOne` that opens `TenantsService.create`: first live row whose
`subdomain` equals the draft subdomain, or — only when the draft carries a
`domain` — whose `domain` equals the draft domain (the where-list is an
or of the two conditions, the second present only if `dto.domain` is set). -/
def Directory.findConflict (dir : Directory) (dto : CreateTenantDto) : Option Tenant :=
  dir.tenants.find? (fun t =>
    t.deletedAt == none &&
      (t.subdomain == dto.subdomain || (dto.domain.isSome && t.domain == dto.domain)))

/-- Outcome constructors of `TenantsService.create`: the two
`ConflictException` throws, the `BadRequestException` thrown when schema
DDL fails, and the returned tenant on success. -/
inductive CreateResult
  | conflictSubdomain
  | conflictDomain
  | ddlFailure
  | success (tenant : Tenant)
  deriving DecidableEq, Repr

/-- Full observable outcome of one `create` call: the thrown or returned
result, the directory afterwards, the record as first saved (status
`PENDING`) when the insert happened, and whether schema-creation DDL was
issued at all. -/
structure CreateOutcome where
  result : CreateResult
  dir : Directory
  pendingSaved : Option Tenant
  ddlAttempted : Bool
  deriving DecidableEq, Repr

/-- The tail of `TenantsService.create` after the advisory conflict check:
derive `schemaName`, insert the record in `PENDING` (entity default
`isActive = true`), issue the schema-creation DDL; on success flip the
record to `ACTIVE` and save, on failure delete the just-inserted record and
throw `BadRequestException`. -/
def createAfterCheck (dir : Directory) (dto : CreateTenantDto) (schemaDdlOk : Bool) :
    CreateOutcome :=
  let schemaName := "tenant_" ++ dto.subdomain
  let tenant : Tenant :=
    { id := dir.nextId, name := dto.name, subdomain := dto.subdomain, domain := dto.domain,
      schemaName := schemaName, status := TenantStatus.pending, isActive := true,
      deletedAt := none }
  let dir1 : Directory := { tenants := dir.tenants ++ [tenant], nextId := dir.nextId + 1 }
  if schemaDdlOk then
    let activeTenant := { tenant with status := TenantStatus.active }
    { result := CreateResult.success activeTenant,
      dir := dir1.saveExisting activeTenant,
      pendingSaved := some tenant, ddlAttempted := true }
  else
    { result := CreateResult.ddlFailure,
      dir := dir1.deleteById tenant.id,
      pendingSaved := some tenant, ddlAttempted := true }

/-- `TenantsService.create`: look for an existing row clashing on
`subdomain` or `domain`; throw the matching `ConflictException` if one of
the two equality checks on the found row fires, otherwise proceed to
insert-then-provision.  (When a row is found, one of the two checks always
fires; the fall-through mirrors the source literally.) -/
def TenantsService.create (dir : Directory) (dto : CreateTenantDto) (schemaDdlOk : Bool) :
    CreateOutcome :=
  match dir.findConflict dto with
  | some existing =>
    if existing.subdomain == dto.subdomain then
      { result := CreateResult.conflictSubdomain, dir := dir,
        pendingSaved := none, ddlAttempted := false }
    else if existing.domain == dto.domain then
      { result := CreateResult.conflictDomain, dir := dir,
        pendingSaved := none, ddlAttempted := false }
    else
      createAfterCheck dir dto schemaDdlOk
  | none => createAfterCheck dir dto schemaDdlOk

/-- `UpdateTenantDto` restricted to the fields relevant here.  It is a
`PartialType` of the create DTO plus `status`/`isActive`; it has no
`schemaName` field. -/
structure UpdateTenantDto where
  name : Option String := none
  subdomain : Option String := none
  domain : Option String := none
  status : Option TenantStatus := none
  isActive : Option Bool := none
  deriving DecidableEq, Repr

/-- Truthiness of an optional string field in the source (absent or empty
string is falsy). -/
def jsTruthy : Option String → Bool
  | none => false
  | some s => s != ""

/-- The `Object.assign(tenant, updateTenantDto)` at the end of
`TenantsService.update`: every field present on the DTO overwrites the
corresponding column; `schemaName` is not a DTO field, so it is untouched. -/
def applyUpdate (t : Tenant) (dto : UpdateTenantDto) : Tenant :=
  { t with
    name := dto.name.getD t.name
    subdomain := dto.subdomain.getD t.subdomain
    domain := match dto.domain with | some d => some d | none => t.domain
    status := dto.status.getD t.status
    isActive := dto.isActive.getD t.isActive }

/-- Outcome constructors of `TenantsService.update`. -/
inductive UpdateResult
  | notFound
  | conflict
  | success (tenant : Tenant)
  deriving DecidableEq, Repr

/-- The duplicate-handle check inside `TenantsService.update`: when the
DTO carries a truthy `subdomain` or `domain` that differs from the loaded
tenant, look for another live row already holding it; the update is
rejected when such a row exists with a different id. -/
def updateClash (dir : Directory) (id : Nat) (tenant : Tenant)
    (dto : UpdateTenantDto) : Bool :=
  let subdCheck := jsTruthy dto.subdomain && dto.subdomain != some tenant.subdomain
  let domCheck := jsTruthy dto.domain && dto.domain != tenant.domain
  if jsTruthy dto.subdomain || jsTruthy dto.domain then
    if subdCheck || domCheck then
      match dir.tenants.find? (fun t =>
          t.deletedAt == none &&
            ((subdCheck && some t.subdomain == dto.subdomain) ||
             (domCheck && t.domain == dto.domain))) with
      | some existing => existing.id != id
      | none => false
    else false
  else false

/-- `TenantsService.update`: load the tenant (`NotFoundException` if
absent), run the duplicate-handle check, then assign the DTO over the
record and save. -/
def TenantsService.update (dir : Directory) (id : Nat) (dto : UpdateTenantDto) :
    Directory × UpdateResult :=
  match dir.findOne id with
  | none => (dir, UpdateResult.notFound)
  | some tenant =>
    if updateClash dir id tenant dto then (dir, UpdateResult.conflict)
    else
      let updated := applyUpdate tenant dto
      (dir.saveExisting updated, UpdateResult.success updated)

/-- `TenantsService.suspend`: load, set `status := SUSPENDED` and
`isActive := false`, save. -/
def TenantsService.suspend (dir : Directory) (id : Nat) : Directory × Option Tenant :=
  match dir.findOne id with
  | none => (dir, none)
  | some t =>
    let suspended := { t with status := TenantStatus.suspended, isActive := false }
    (dir.saveExisting suspended, some suspended)

/-- `TenantsService.activate`: load, set `status := ACTIVE` and
`isActive := true`, save. -/
def TenantsService.activate (dir : Directory) (id : Nat) : Directory × Option Tenant :=
  match dir.findOne id with
  | none => (dir, none)
  | some t =>
    let activated := { t with status := TenantStatus.active, isActive := true }
    (dir.saveExisting activated, some activated)

/-- A cached `DataSource` handle: its identity (for tracking which physical
connection a caller holds) and its `isInitialized` flag. -/
structure Conn where
  connId : Nat
  isInitialized : Bool
  deriving DecidableEq, Repr

/-- State of `TenantConnectionService`: the `tenantConnections` map as an
ordered association list, a supply of fresh connection identities, a
counter of completed physical connection establishments, and the identities
of handles on which `destroy` has been called. -/
structure RegistryState where
  tenantConnections : List (String × Conn)
  nextConnId : Nat
  initAttempts : Nat
  destroyed : List Nat
  deriving DecidableEq, Repr

/-- `Map.get` / `Map.has` on the connection map. -/
def RegistryState.lookup (st : RegistryState) (schema : String) : Option Conn :=
  (st.tenantConnections.find? (fun p => p.1 == schema)).map Prod.snd

/-- `Map.set` on an association list: replace the value under an existing
key, otherwise append a new entry. -/
def mapSet (m : List (String × Conn)) (k : String) (c : Conn) : List (String × Conn) :=
  if m.any (fun p => p.1 == k) then m.map (fun p => if p.1 == k then (k, c) else p)
  else m ++ [(k, c)]

/-- `Map.delete` on an association list. -/
def mapDelete (m : List (String × Conn)) (k : String) : List (String × Conn) :=
  m.filter (fun p => p.1 != k)

/-- `TenantConnectionService.getTenantConnection`, sequential run: return
the cached handle on a hit; on a miss construct a `DataSource` for the
schema and call `initialize()` — modelled by the oracle `initOk` — and only
after a successful initialization put the handle in the map.  A failed
`initialize()` throws out of the method before the `set`, leaving the map
untouched. -/
def getTenantConnection (st : RegistryState) (schema : String) (initOk : Bool) :
    RegistryState × Except Unit Conn :=
  match st.lookup schema with
  | some c => (st, Except.ok c)
  | none =>
    let conn : Conn := { connId := st.nextConnId, isInitialized := true }
    let st1 := { st with nextConnId := st.nextConnId + 1, initAttempts := st.initAttempts + 1 }
    if initOk then
      ({ st1 with tenantConnections := mapSet st1.tenantConnections schema conn },
        Except.ok conn)
    else
      (st1, Except.error ())

/-- `TenantConnectionService.dropTenantSchema`: issue the
drop-schema-if-exists DDL; on success delete the map entry for the schema
(without touching the handle), on failure rethrow with the map untouched. -/
def dropTenantSchema (st : RegistryState) (schema : String) (ddlOk : Bool) :
    RegistryState × Except Unit Unit :=
  if ddlOk then
    ({ st with tenantConnections := mapDelete st.tenantConnections schema }, Except.ok ())
  else
    (st, Except.error ())

/-- `TenantConnectionService.closeTenantConnection`: when the map holds an
initialized handle for the schema, `destroy` it and delete the entry;
otherwise do nothing. -/
def closeTenantConnection (st : RegistryState) (schema : String) : RegistryState :=
  match st.lookup schema with
  | some c =>
    if c.isInitialized then
      { st with
        tenantConnections := mapDelete st.tenantConnections schema,
        destroyed := st.destroyed ++ [c.connId] }
    else st
  | none => st

/-- Outcome constructors of `TenantsService.remove`: the
`NotFoundException` from `findOne`, the `BadRequestException` from the
catch block, and normal completion. -/
inductive RemoveResult
  | notFound
  | failed
  | removed
  deriving DecidableEq, Repr

/-- `TenantsService.remove`: load the tenant, drop its schema (which on
success also evicts the connection-map entry), then soft-delete the
record; any failure inside the try aborts before the soft-delete. -/
def TenantsService.remove (dir : Directory) (reg : RegistryState) (id : Nat)
    (dropDdlOk : Bool) (now : Nat) : Directory × RegistryState × RemoveResult :=
  match dir.findOne id with
  | none => (dir, reg, RemoveResult.notFound)
  | some t =>
    match dropTenantSchema reg t.schemaName dropDdlOk with
    | (reg1, Except.ok _) => (dir.softDeleteById id now, reg1, RemoveResult.removed)
    | (reg1, Except.error _) => (dir, reg1, RemoveResult.failed)

/-- `TenantService.findById` of the common module: delegates to
`TenantsService.findOne`, converting its `NotFoundException` into its own
`NotFoundException`; net effect is the directory lookup. -/
def TenantService.findById (dir : Directory) (id : Nat) : Option Tenant :=
  dir.findOne id

/-- Outcome constructors of `TenantGuard.canActivate`: the
`BadRequestException` for a missing identifier, the `ForbiddenException`
(both for an unresolvable tenant — the `NotFoundException` is caught and
rethrown as forbidden — and for an inactive one), and acceptance carrying
the tenant attached to the request. -/
inductive GuardOutcome
  | validationError
  | authorizationError
  | allowed (tenant : Tenant)
  deriving DecidableEq, Repr

/-- `TenantGuard.canActivate`: read the tenant identifier from the
transport header (absent — or empty, which is falsy in the source — is
modelled as `none`), reject with a validation error if missing, resolve it
through `TenantService.findById`, reject with an authorization error when
unresolvable or when `isActive` is false, otherwise attach the tenant and
allow.  The guard reads `isActive` only; it never consults `status`. -/
def TenantGuard.canActivate (dir : Directory) (tenantId : Option Nat) : GuardOutcome :=
  match tenantId with
  | none => GuardOutcome.validationError
  | some tid =>
    match TenantService.findById dir tid with
    | none => GuardOutcome.authorizationError
    | some t => if t.isActive then GuardOutcome.allowed t else GuardOutcome.authorizationError

/-- Program counter of one caller running `getTenantConnection`
concurrently.  The method body has one suspension point, the `await` on
`connection.initialize()`; the code before it (cache check, `DataSource`
construction, starting the initialization) and the code after it (map
`set`, return) each run atomically on the event loop. -/
inductive CallerPC
  | ready
  | awaitingInit (conn : Conn)
  | done (res : Conn)
  deriving DecidableEq, Repr

/-- The handle a finished caller received, if it has finished. -/
def CallerPC.result : CallerPC → Option Conn
  | CallerPC.done c => some c
  | _ => none

/-- Shared state for two callers A and B racing `getTenantConnection` on
the same schema: the connection map, fresh connection identities, the
count of completed physical establishments, and each caller's program
counter. -/
structure ConcState where
  tenantConnections : List (String × Conn)
  nextConnId : Nat
  initCount : Nat
  pcA : CallerPC
  pcB : CallerPC
  deriving DecidableEq, Repr

/-- Both callers at the start, nothing cached. -/
def initialConcState : ConcState :=
  { tenantConnections := [], nextConnId := 0, initCount := 0,
    pcA := CallerPC.ready, pcB := CallerPC.ready }

/-- One atomic segment of `getTenantConnection` executed by caller `who`
(`false` = A, `true` = B): from `ready`, run the cache check — a hit
finishes with the cached handle, a miss constructs the `DataSource` and
suspends on its initialization; from `awaitingInit`, the initialization
completes (one physical establishment), the handle is `set` into the map,
and the caller returns its own handle.  A finished caller takes no further
steps. -/
def stepGet (schema : String) (s : ConcState) (who : Bool) : ConcState :=
  let pc := if who then s.pcB else s.pcA
  let setPC := fun (s1 : ConcState) (pc1 : CallerPC) =>
    if who then { s1 with pcB := pc1 } else { s1 with pcA := pc1 }
  match pc with
  | CallerPC.ready =>
    match (s.tenantConnections.find? (fun p => p.1 == schema)).map Prod.snd with
    | some c => setPC s (CallerPC.done c)
    | none =>
      let conn : Conn := { connId := s.nextConnId, isInitialized := true }
      setPC { s with nextConnId := s.nextConnId + 1 } (CallerPC.awaitingInit conn)
  | CallerPC.awaitingInit conn =>
    setPC
      { s with
        tenantConnections := mapSet s.tenantConnections schema conn,
        initCount := s.initCount + 1 }
      (CallerPC.done conn)
  | CallerPC.done _ => s

/-- Run an interleaving of the two callers. -/
def runSchedule (schema : String) (s : ConcState) (sched : List Bool) : ConcState :=
  sched.foldl (stepGet schema) s

/-- All interleavings of the two atomic segments of caller A with the two
of caller B. -/
def twoCallerSchedules : List (List Bool) :=
  [[false, false, true, true], [false, true, false, true], [false, true, true, false],
   [true, true, false, false], [true, false, true, false], [true, false, false, true]]

/-- A schedule is sequential when one call runs to completion before the
other starts. -/
def isSequential (sched : List Bool) : Bool :=
  sched == [false, false, true, true] || sched == [true, true, false, false]

/-- Deleting a key from the map removes every entry under that key. -/
lemma find?_mapDelete_self (m : List (String × Conn)) (k : String) :
    (mapDelete m k).find? (fun p => p.1 == k) = none := by
  unfold mapDelete
  rw [List.find?_filter]
  apply List.find?_eq_none.mpr
  intro x _
  simp

/-- Deleting one key leaves lookups under any other key unchanged. -/
lemma find?_mapDelete_other (m : List (String × Conn)) (k schema : String)
    (hk : k ≠ schema) :
    (mapDelete m schema).find? (fun p => p.1 == k) = m.find? (fun p => p.1 == k) := by
  unfold mapDelete
  rw [List.find?_filter]
  congr 1
  funext p
  by_cases h : p.1 = schema
  · simp [h, Ne.symm hk]
  · simp [h, beq_eq_decide]

/-- Replacing every entry under a key and then looking that key up yields
the new entry exactly when the key was present. -/
lemma find?_map_replaceKey (m : List (String × Conn)) (k : String) (c : Conn) :
    (m.map (fun p => if p.1 == k then (k, c) else p)).find? (fun p => p.1 == k) =
      if m.any (fun p => p.1 == k) then some (k, c) else none := by
  induction m with
  | nil => simp
  | cons a m ih =>
    by_cases ha : a.1 = k
    · simp [List.find?_cons, ha]
    · have hak : (a.1 == k) = false := by simp [ha]
      have h1 : ¬((a.1 == k) = true) := by simp [hak]
      rw [List.map_cons, if_neg h1]
      simp only [List.find?_cons, List.any_cons, hak, Bool.false_or]
      exact ih

/-- A `Map.set` makes the key look up to the freshly stored handle. -/
lemma find?_mapSet_self (m : List (String × Conn)) (k : String) (c : Conn) :
    (mapSet m k c).find? (fun p => p.1 == k) = some (k, c) := by
  unfold mapSet
  by_cases h : m.any (fun p => p.1 == k) = true
  · rw [if_pos h, find?_map_replaceKey, if_pos h]
  · rw [if_neg h, List.find?_append]
    have hn : m.find? (fun p => p.1 == k) = none := by
      apply List.find?_eq_none.mpr
      intro x hx
      intro hxk
      exact h (List.any_eq_true.mpr ⟨x, hx, hxk⟩)
    simp [hn]

/-- C9: `closeTenantConnection` (the invalidate operation of the registry)
removes and destroys a live cached entry, is a harmless no-op on an absent
or already-closed entry, leaves unrelated keys untouched, and is
idempotent. -/
theorem closeTenantConnection_invalidate_idempotent (st : RegistryState) (schema : String) :
    closeTenantConnection (closeTenantConnection st schema) schema =
      closeTenantConnection st schema ∧
    (st.lookup schema = none → closeTenantConnection st schema = st) ∧
    (∀ c, st.lookup schema = some c → c.isInitialized = false →
      closeTenantConnection st schema = st) ∧
    (∀ c, st.lookup schema = some c → c.isInitialized = true →
      (closeTenantConnection st schema).lookup schema = none ∧
      (closeTenantConnection st schema).destroyed = st.destroyed ++ [c.connId] ∧
      ∀ k, k ≠ schema → (closeTenantConnection st schema).lookup k = st.lookup k) := by
  have hnone : ∀ (s : RegistryState), s.lookup schema = none →
      closeTenantConnection s schema = s := by
    intro s h
    simp [closeTenantConnection, h]
  have hlive : ∀ (c : Conn), st.lookup schema = some c → c.isInitialized = true →
      closeTenantConnection st schema =
        { st with
          tenantConnections := mapDelete st.tenantConnections schema
          destroyed := st.destroyed ++ [c.connId] } := by
    intro c h hc
    simp [closeTenantConnection, h, hc]
  have hdelLookup : ∀ (s : RegistryState),
      s.tenantConnections = mapDelete st.tenantConnections schema →
      s.lookup schema = none := by
    intro s hs
    simp [RegistryState.lookup, hs, find?_mapDelete_self]
  refine ⟨?_, hnone st, ?_, ?_⟩
  · cases hm : st.lookup schema with
    | none => rw [hnone st hm, hnone st hm]
    | some c =>
      cases hc : c.isInitialized with
      | false =>
        have h1 : closeTenantConnection st schema = st := by
          simp [closeTenantConnection, hm, hc]
        rw [h1, h1]
      | true =>
        rw [hlive c hm hc]
        exact hnone _ (hdelLookup _ rfl)
  · intro c hm hc
    simp [closeTenantConnection, hm, hc]
  · intro c hm hc
    rw [hlive c hm hc]
    refine ⟨hdelLookup _ rfl, rfl, ?_⟩
    intro k hk
    simp [RegistryState.lookup, find?_mapDelete_other _ _ _ hk]

/-- Witness for C9 at a registry holding one live handle for
`tenant_acme`. -/
theorem closeTenantConnection_invalidate_idempotent_witness :
    closeTenantConnection
        (closeTenantConnection ⟨[("tenant_acme", ⟨7, true⟩)], 8, 1, []⟩ "tenant_acme")
        "tenant_acme" =
      closeTenantConnection ⟨[("tenant_acme", ⟨7, true⟩)], 8, 1, []⟩ "tenant_acme" ∧
    (closeTenantConnection ⟨[("tenant_acme", ⟨7, true⟩)], 8, 1, []⟩
        "tenant_acme").lookup "tenant_acme" = none ∧
    (closeTenantConnection ⟨[("tenant_acme", ⟨7, true⟩)], 8, 1, []⟩
        "tenant_acme").destroyed = [] ++ [7] := by
  have h := closeTenantConnection_invalidate_idempotent
    ⟨[("tenant_acme", ⟨7, true⟩)], 8, 1, []⟩ "tenant_acme"
  have h4 := h.2.2.2 ⟨7, true⟩ (by decide) rfl
  exact ⟨h.1, h4.1, h4.2.1⟩

/-- C10: on the tenant-removal path a successful schema drop evicts the
map entry for the schema of the loaded tenant but records no destroy — the
previously cached handle is never closed — while `closeTenantConnection`
on a live entry both destroys the handle and removes the entry. -/
theorem remove_drop_evicts_without_destroy (dir : Directory) (reg : RegistryState)
    (id now : Nat) (t : Tenant) (h : dir.findOne id = some t) :
    (TenantsService.remove dir reg id true now).2.2 = RemoveResult.removed ∧
    ((TenantsService.remove dir reg id true now).2.1).lookup t.schemaName = none ∧
    ((TenantsService.remove dir reg id true now).2.1).destroyed = reg.destroyed ∧
    (∀ k, k ≠ t.schemaName →
      ((TenantsService.remove dir reg id true now).2.1).lookup k = reg.lookup k) ∧
    (∀ c, reg.lookup t.schemaName = some c → c.isInitialized = true →
      (closeTenantConnection reg t.schemaName).destroyed = reg.destroyed ++ [c.connId] ∧
      (closeTenantConnection reg t.schemaName).lookup t.schemaName = none) := by
  have hr : TenantsService.remove dir reg id true now =
      (dir.softDeleteById id now,
        { reg with tenantConnections := mapDelete reg.tenantConnections t.schemaName },
        RemoveResult.removed) := by
    simp [TenantsService.remove, h, dropTenantSchema]
  rw [hr]
  refine ⟨rfl, ?_, rfl, ?_, ?_⟩
  · simp [RegistryState.lookup, find?_mapDelete_self]
  · intro k hk
    simp [RegistryState.lookup, find?_mapDelete_other _ _ _ hk]
  · intro c hc hinit
    have hcl : closeTenantConnection reg t.schemaName =
        { reg with
          tenantConnections := mapDelete reg.tenantConnections t.schemaName
          destroyed := reg.destroyed ++ [c.connId] } := by
      simp [closeTenantConnection, hc, hinit]
    rw [hcl]
    exact ⟨rfl, by simp [RegistryState.lookup, find?_mapDelete_self]⟩

/-- Witness for C10: removing a tenant whose schema has a cached live
handle. -/
theorem remove_drop_evicts_without_destroy_witness :
    (TenantsService.remove
        ⟨[{ id := 0, name := "Acme", subdomain := "acme", domain := none,
            schemaName := "tenant_acme", status := TenantStatus.active, isActive := true,
            deletedAt := none }], 1⟩
        ⟨[("tenant_acme", ⟨3, true⟩)], 4, 1, []⟩ 0 true 99).2.2 = RemoveResult.removed ∧
    ((TenantsService.remove
        ⟨[{ id := 0, name := "Acme", subdomain := "acme", domain := none,
            schemaName := "tenant_acme", status := TenantStatus.active, isActive := true,
            deletedAt := none }], 1⟩
        ⟨[("tenant_acme", ⟨3, true⟩)], 4, 1, []⟩ 0 true 99).2.1).lookup "tenant_acme" =
      none ∧
    ((TenantsService.remove
        ⟨[{ id := 0, name := "Acme", subdomain := "acme", domain := none,
            schemaName := "tenant_acme", status := TenantStatus.active, isActive := true,
            deletedAt := none }], 1⟩
        ⟨[("tenant_acme", ⟨3, true⟩)], 4, 1, []⟩ 0 true 99).2.1).destroyed = [] := by
  have h := remove_drop_evicts_without_destroy
    ⟨[{ id := 0, name := "Acme", subdomain := "acme", domain := none,
        schemaName := "tenant_acme", status := TenantStatus.active, isActive := true,
        deletedAt := none }], 1⟩
    ⟨[("tenant_acme", ⟨3, true⟩)], 4, 1, []⟩ 0 99
    { id := 0, name := "Acme", subdomain := "acme", domain := none,
      schemaName := "tenant_acme", status := TenantStatus.active, isActive := true,
      deletedAt := none } (by decide)
  exact ⟨h.1, h.2.1, h.2.2.1⟩

/-- C4: when the schema-drop DDL fails, `remove` reports the failure and
leaves both the tenant directory and the connection registry exactly as
they were — the tenant is still found unchanged — and a retry of the
removal in place (now with working DDL) completes. -/
theorem remove_dropFailure_unchanged (dir : Directory) (reg : RegistryState)
    (id now : Nat) (t : Tenant) (h : dir.findOne id = some t) :
    (TenantsService.remove dir reg id false now).2.2 = RemoveResult.failed ∧
    (TenantsService.remove dir reg id false now).1 = dir ∧
    (TenantsService.remove dir reg id false now).2.1 = reg ∧
    (TenantsService.remove dir reg id false now).1.findOne id = some t ∧
    (TenantsService.remove (TenantsService.remove dir reg id false now).1
        (TenantsService.remove dir reg id false now).2.1 id true now).2.2 =
      RemoveResult.removed := by
  have hr : TenantsService.remove dir reg id false now = (dir, reg, RemoveResult.failed) := by
    simp [TenantsService.remove, h, dropTenantSchema]
  rw [hr]
  exact ⟨rfl, rfl, rfl, h, by simp [TenantsService.remove, h, dropTenantSchema]⟩

/-- Witness for C4 on a one-tenant directory whose schema drop fails. -/
theorem remove_dropFailure_unchanged_witness :
    (TenantsService.remove
        ⟨[{ id := 0, name := "Acme", subdomain := "acme", domain := none,
            schemaName := "tenant_acme", status := TenantStatus.active, isActive := true,
            deletedAt := none }], 1⟩
        ⟨[], 0, 0, []⟩ 0 false 99).2.2 = RemoveResult.failed ∧
    (TenantsService.remove
        ⟨[{ id := 0, name := "Acme", subdomain := "acme", domain := none,
            schemaName := "tenant_acme", status := TenantStatus.active, isActive := true,
            deletedAt := none }], 1⟩
        ⟨[], 0, 0, []⟩ 0 false 99).1 =
      ⟨[{ id := 0, name := "Acme", subdomain := "acme", domain := none,
          schemaName := "tenant_acme", status := TenantStatus.active, isActive := true,
          deletedAt := none }], 1⟩ := by
  have h := remove_dropFailure_unchanged
    ⟨[{ id := 0, name := "Acme", subdomain := "acme", domain := none,
        schemaName := "tenant_acme", status := TenantStatus.active, isActive := true,
        deletedAt := none }], 1⟩
    ⟨[], 0, 0, []⟩ 0 99
    { id := 0, name := "Acme", subdomain := "acme", domain := none,
      schemaName := "tenant_acme", status := TenantStatus.active, isActive := true,
      deletedAt := none } (by decide)
  exact ⟨h.1, h.2.1⟩

/-- C6: when establishing a connection for an uncached schema fails, the
error is surfaced, the map is left without an entry for that schema (no
half-initialized handle is cached) and nothing is destroyed; a later call
for the same schema attempts establishment again and, once it succeeds,
caches and returns the new live handle. -/
theorem getTenantConnection_failure_reverts (st : RegistryState) (schema : String)
    (h : st.lookup schema = none) :
    (getTenantConnection st schema false).2 = Except.error () ∧
    ((getTenantConnection st schema false).1).tenantConnections = st.tenantConnections ∧
    ((getTenantConnection st schema false).1).destroyed = st.destroyed ∧
    ((getTenantConnection st schema false).1).lookup schema = none ∧
    ((getTenantConnection st schema false).1).initAttempts = st.initAttempts + 1 ∧
    ((getTenantConnection (getTenantConnection st schema false).1 schema true).1).initAttempts
      = st.initAttempts + 2 ∧
    ∃ c, (getTenantConnection (getTenantConnection st schema false).1 schema true).2 =
        Except.ok c ∧
      ((getTenantConnection (getTenantConnection st schema false).1 schema true).1).lookup
        schema = some c := by
  have h1 : getTenantConnection st schema false =
      ({ st with nextConnId := st.nextConnId + 1, initAttempts := st.initAttempts + 1 },
        Except.error ()) := by
    simp [getTenantConnection, h]
  have hfind : st.tenantConnections.find? (fun p => p.1 == schema) = none := by
    simpa [RegistryState.lookup, Option.map_eq_none'] using h
  rw [h1]
  refine ⟨rfl, rfl, rfl, by simpa [RegistryState.lookup] using h, rfl, ?_, ?_⟩
  · simp [getTenantConnection, RegistryState.lookup, hfind]
  · refine ⟨{ connId := st.nextConnId + 1, isInitialized := true }, ?_, ?_⟩
    · simp [getTenantConnection, RegistryState.lookup, hfind]
    · simp [getTenantConnection, RegistryState.lookup, hfind, find?_mapSet_self]

/-- Witness for C6 starting from the empty registry. -/
theorem getTenantConnection_failure_reverts_witness :
    (getTenantConnection ⟨[], 0, 0, []⟩ "tenant_acme" false).2 = Except.error () ∧
    ((getTenantConnection ⟨[], 0, 0, []⟩ "tenant_acme" false).1).tenantConnections = [] ∧
    ((getTenantConnection ⟨[], 0, 0, []⟩ "tenant_acme" false).1).lookup "tenant_acme" =
      none ∧
    ∃ c, (getTenantConnection
          (getTenantConnection ⟨[], 0, 0, []⟩ "tenant_acme" false).1 "tenant_acme" true).2 =
        Except.ok c := by
  have h := getTenantConnection_failure_reverts ⟨[], 0, 0, []⟩ "tenant_acme" (by decide)
  obtain ⟨c, hc, -⟩ := h.2.2.2.2.2.2
  exact ⟨h.1, h.2.1, h.2.2.2.1, c, hc⟩

/-- C5: when a live tenant already holds the draft subdomain, or the draft
carries a domain already held by a live tenant, `create` throws a conflict
and performs no write at all: the directory is unchanged, no record is
saved in `PENDING`, and no schema-creation DDL is issued — regardless of
whether the DDL would have succeeded. -/
theorem create_conflict_rejects (dir : Directory) (dto : CreateTenantDto) (b : Bool)
    (h : ∃ t ∈ dir.tenants, t.deletedAt = none ∧
      (t.subdomain = dto.subdomain ∨ (dto.domain.isSome ∧ t.domain = dto.domain))) :
    ((TenantsService.create dir dto b).result = CreateResult.conflictSubdomain ∨
     (TenantsService.create dir dto b).result = CreateResult.conflictDomain) ∧
    (TenantsService.create dir dto b).dir = dir ∧
    (TenantsService.create dir dto b).pendingSaved = none ∧
    (TenantsService.create dir dto b).ddlAttempted = false := by
  have hsome : (dir.findConflict dto).isSome = true := by
    rw [Directory.findConflict, List.find?_isSome]
    obtain ⟨t, ht, hdel, hor⟩ := h
    refine ⟨t, ht, ?_⟩
    rcases hor with hs | ⟨hd1, hd2⟩
    · simp [hdel, hs]
    · simp [hdel, hd1, hd2]
  obtain ⟨m, hm⟩ := Option.isSome_iff_exists.mp hsome
  have hpm := List.find?_some (by simpa [Directory.findConflict] using hm)
  by_cases hs : m.subdomain = dto.subdomain
  · simp [TenantsService.create, hm, hs]
  · have hsb : (m.subdomain == dto.subdomain) = false := by simp [hs]
    have hd : (m.domain == dto.domain) = true := by
      simp only [hsb, Bool.false_or, Bool.and_eq_true, beq_iff_eq] at hpm
      simp [hpm.2.2]
    have hd1 : m.domain = dto.domain := by simpa using hd
    simp [TenantsService.create, hm, hs, hd1]

/-- Witness for C5: a second create with subdomain `acme` hits the
conflict. -/
theorem create_conflict_rejects_witness :
    ((TenantsService.create
        ⟨[{ id := 0, name := "Acme", subdomain := "acme", domain := none,
            schemaName := "tenant_acme", status := TenantStatus.active, isActive := true,
            deletedAt := none }], 1⟩
        { name := "Acme Two", subdomain := "acme", domain := none } true).result =
        CreateResult.conflictSubdomain ∨
     (TenantsService.create
        ⟨[{ id := 0, name := "Acme", subdomain := "acme", domain := none,
            schemaName := "tenant_acme", status := TenantStatus.active, isActive := true,
            deletedAt := none }], 1⟩
        { name := "Acme Two", subdomain := "acme", domain := none } true).result =
        CreateResult.conflictDomain) ∧
    (TenantsService.create
        ⟨[{ id := 0, name := "Acme", subdomain := "acme", domain := none,
            schemaName := "tenant_acme", status := TenantStatus.active, isActive := true,
            deletedAt := none }], 1⟩
        { name := "Acme Two", subdomain := "acme", domain := none } true).dir =
      ⟨[{ id := 0, name := "Acme", subdomain := "acme", domain := none,
          schemaName := "tenant_acme", status := TenantStatus.active, isActive := true,
          deletedAt := none }], 1⟩ ∧
    (TenantsService.create
        ⟨[{ id := 0, name := "Acme", subdomain := "acme", domain := none,
            schemaName := "tenant_acme", status := TenantStatus.active, isActive := true,
            deletedAt := none }], 1⟩
        { name := "Acme Two", subdomain := "acme", domain := none } true).pendingSaved =
      none ∧
    (TenantsService.create
        ⟨[{ id := 0, name := "Acme", subdomain := "acme", domain := none,
            schemaName := "tenant_acme", status := TenantStatus.active, isActive := true,
            deletedAt := none }], 1⟩
        { name := "Acme Two", subdomain := "acme", domain := none } true).ddlAttempted =
      false := by
  refine create_conflict_rejects _ _ true ?_
  refine ⟨{ id := 0, name := "Acme", subdomain := "acme", domain := none,
            schemaName := "tenant_acme", status := TenantStatus.active, isActive := true,
            deletedAt := none }, by simp, rfl, Or.inl rfl⟩

/-- C3: when the conflict check passes, the record is inserted in
`PENDING`, and the schema-creation DDL then fails, `create` deletes the
just-inserted record and surfaces the provisioning error: the stored rows
are exactly as before the call, no live row with the draft subdomain
exists, and the conflict check for the same draft passes again — the
subdomain is immediately available for reuse. -/
theorem create_ddlFailure_rolls_back (dir : Directory) (dto : CreateTenantDto)
    (hb : dir.freshIds) (hc : dir.findConflict dto = none) :
    (TenantsService.create dir dto false).result = CreateResult.ddlFailure ∧
    (TenantsService.create dir dto false).dir.tenants = dir.tenants ∧
    (∃ p, (TenantsService.create dir dto false).pendingSaved = some p ∧
      p.status = TenantStatus.pending ∧ p.subdomain = dto.subdomain ∧
      p.schemaName = "tenant_" ++ dto.subdomain) ∧
    (TenantsService.create dir dto false).dir.findConflict dto = none ∧
    ∀ t ∈ (TenantsService.create dir dto false).dir.tenants,
      t.deletedAt = none → t.subdomain ≠ dto.subdomain := by
  have hc2 : dir.tenants.find? (fun t =>
      t.deletedAt == none &&
        (t.subdomain == dto.subdomain || (dto.domain.isSome && t.domain == dto.domain))) =
      none := hc
  have hfil : (dir.tenants ++
      [({ id := dir.nextId, name := dto.name, subdomain := dto.subdomain,
          domain := dto.domain, schemaName := "tenant_" ++ dto.subdomain,
          status := TenantStatus.pending, isActive := true,
          deletedAt := none } : Tenant)]).filter (fun u => u.id != dir.nextId) =
      dir.tenants := by
    rw [List.filter_append]
    have h1 : dir.tenants.filter (fun u => u.id != dir.nextId) = dir.tenants :=
      List.filter_eq_self.mpr (fun a ha => by simp [Nat.ne_of_lt (hb a ha)])
    rw [h1]
    simp
  have hr : TenantsService.create dir dto false =
      { result := CreateResult.ddlFailure
        dir := { tenants := dir.tenants, nextId := dir.nextId + 1 }
        pendingSaved := some
          { id := dir.nextId, name := dto.name, subdomain := dto.subdomain,
            domain := dto.domain, schemaName := "tenant_" ++ dto.subdomain,
            status := TenantStatus.pending, isActive := true, deletedAt := none }
        ddlAttempted := true } := by
    simp only [TenantsService.create, hc, createAfterCheck, Directory.deleteById]
    rw [CreateOutcome.mk.injEq]
    refine ⟨rfl, ?_, rfl, rfl⟩
    rw [Directory.mk.injEq]
    exact ⟨hfil, rfl⟩
  rw [hr]
  have hnone := List.find?_eq_none.mp hc2
  refine ⟨rfl, rfl, ⟨_, rfl, rfl, rfl, rfl⟩, hc2, ?_⟩
  intro t ht hdel heq
  exact hnone t ht (by simp [hdel, heq])

/-- Witness for C3: provisioning `acme` on an empty directory with failing
DDL. -/
theorem create_ddlFailure_rolls_back_witness :
    (TenantsService.create ⟨[], 0⟩ { name := "Acme", subdomain := "acme", domain := none }
      false).result = CreateResult.ddlFailure ∧
    (TenantsService.create ⟨[], 0⟩ { name := "Acme", subdomain := "acme", domain := none }
      false).dir.tenants = [] ∧
    (∃ p, (TenantsService.create ⟨[], 0⟩
        { name := "Acme", subdomain := "acme", domain := none } false).pendingSaved =
        some p ∧
      p.status = TenantStatus.pending ∧ p.subdomain = "acme" ∧
      p.schemaName = "tenant_" ++ "acme") ∧
    (TenantsService.create ⟨[], 0⟩ { name := "Acme", subdomain := "acme", domain := none }
      false).dir.findConflict { name := "Acme", subdomain := "acme", domain := none } =
      none := by
  have h := create_ddlFailure_rolls_back ⟨[], 0⟩
    { name := "Acme", subdomain := "acme", domain := none }
    (by simp [Directory.freshIds]) (by decide)
  exact ⟨h.1, h.2.1, h.2.2.1, h.2.2.2.1⟩

/-- C7: a successful `create` returns a tenant whose `schemaName` is the
literal prefix `tenant_` concatenated with the draft subdomain and whose
status is `ACTIVE`, and the record as first saved was the same record with
status `PENDING` — the tenant passed through `PENDING` before `ACTIVE`. -/
theorem create_success_active_schemaName (dir : Directory) (dto : CreateTenantDto)
    (hc : dir.findConflict dto = none) :
    ∃ t, (TenantsService.create dir dto true).result = CreateResult.success t ∧
      t.schemaName = "tenant_" ++ dto.subdomain ∧
      t.subdomain = dto.subdomain ∧
      t.status = TenantStatus.active ∧
      t.isActive = true ∧
      (TenantsService.create dir dto true).pendingSaved =
        some { t with status := TenantStatus.pending } ∧
      t ∈ (TenantsService.create dir dto true).dir.tenants := by
  refine ⟨{ id := dir.nextId, name := dto.name, subdomain := dto.subdomain,
            domain := dto.domain, schemaName := "tenant_" ++ dto.subdomain,
            status := TenantStatus.active, isActive := true, deletedAt := none },
    ?_, rfl, rfl, rfl, rfl, ?_, ?_⟩
  · simp [TenantsService.create, hc, createAfterCheck]
  · simp [TenantsService.create, hc, createAfterCheck]
  · simp [TenantsService.create, hc, createAfterCheck, Directory.saveExisting]

/-- Witness for C7: creating `acme` on an empty directory yields schema
name `tenant_acme`. -/
theorem create_success_active_schemaName_witness :
    ∃ t, (TenantsService.create ⟨[], 0⟩
        { name := "Acme", subdomain := "acme", domain := none } true).result =
        CreateResult.success t ∧
      t.schemaName = "tenant_" ++ "acme" ∧
      t.subdomain = "acme" ∧
      t.status = TenantStatus.active ∧
      t.isActive = true ∧
      (TenantsService.create ⟨[], 0⟩
        { name := "Acme", subdomain := "acme", domain := none } true).pendingSaved =
        some { t with status := TenantStatus.pending } ∧
      t ∈ (TenantsService.create ⟨[], 0⟩
        { name := "Acme", subdomain := "acme", domain := none } true).dir.tenants :=
  create_success_active_schemaName ⟨[], 0⟩
    { name := "Acme", subdomain := "acme", domain := none } (by decide)

/-- Saving a row whose id and schema name agree with a stored row leaves
the id-to-schema-name association of the directory unchanged. -/
lemma map_pair_saveExisting (dir : Directory) (hn : dir.idsNodup) (t t' : Tenant)
    (ht : t ∈ dir.tenants) (hid : t'.id = t.id) (hs : t'.schemaName = t.schemaName) :
    (dir.saveExisting t').tenants.map (fun u => (u.id, u.schemaName)) =
      dir.tenants.map (fun u => (u.id, u.schemaName)) := by
  unfold Directory.saveExisting
  simp only
  rw [List.map_map]
  apply List.map_congr_left
  intro u hu
  by_cases h : u.id = t'.id
  · have hut : u = t := List.inj_on_of_nodup_map hn hu ht (by rw [h, hid])
    simp [Function.comp, h, hid, hs, hut]
  · simp [Function.comp, h]

/-- C8: none of the directory writes after creation — `update` (even one
that changes the subdomain), `suspend`, `activate` — changes any stored
row's `schemaName`: the id-to-schema-name association is preserved, and
the tenant returned by a successful `update` carries the schema name the
loaded tenant already had. -/
theorem schemaName_immutable (dir : Directory) (hn : dir.idsNodup) (id : Nat)
    (dto : UpdateTenantDto) :
    (TenantsService.update dir id dto).1.tenants.map (fun u => (u.id, u.schemaName)) =
      dir.tenants.map (fun u => (u.id, u.schemaName)) ∧
    (TenantsService.suspend dir id).1.tenants.map (fun u => (u.id, u.schemaName)) =
      dir.tenants.map (fun u => (u.id, u.schemaName)) ∧
    (TenantsService.activate dir id).1.tenants.map (fun u => (u.id, u.schemaName)) =
      dir.tenants.map (fun u => (u.id, u.schemaName)) ∧
    ∀ t t2, dir.findOne id = some t →
      (TenantsService.update dir id dto).2 = UpdateResult.success t2 →
      t2.schemaName = t.schemaName := by
  refine ⟨?_, ?_, ?_, ?_⟩
  · cases hm : dir.findOne id with
    | none => simp [TenantsService.update, hm]
    | some tenant =>
      have htm : tenant ∈ dir.tenants :=
        List.mem_of_find?_eq_some hm
      by_cases hcl : updateClash dir id tenant dto = true
      · simp [TenantsService.update, hm, hcl]
      · simp only [TenantsService.update, hm, hcl, Bool.false_eq_true, if_false]
        exact map_pair_saveExisting dir hn tenant (applyUpdate tenant dto) htm rfl rfl
  · cases hm : dir.findOne id with
    | none => simp [TenantsService.suspend, hm]
    | some tenant =>
      have htm : tenant ∈ dir.tenants := List.mem_of_find?_eq_some hm
      simp only [TenantsService.suspend, hm]
      exact map_pair_saveExisting dir hn tenant _ htm rfl rfl
  · cases hm : dir.findOne id with
    | none => simp [TenantsService.activate, hm]
    | some tenant =>
      have htm : tenant ∈ dir.tenants := List.mem_of_find?_eq_some hm
      simp only [TenantsService.activate, hm]
      exact map_pair_saveExisting dir hn tenant _ htm rfl rfl
  · intro t t2 hfind hsucc
    by_cases hcl : updateClash dir id t dto = true
    · simp [TenantsService.update, hfind, hcl] at hsucc
    · simp only [TenantsService.update, hfind, hcl, Bool.false_eq_true, if_false,
        UpdateResult.success.injEq] at hsucc
      rw [← hsucc]
      rfl

/-- Witness for C8: an update that changes the subdomain of the `acme`
tenant leaves its schema name `tenant_acme` in place. -/
theorem schemaName_immutable_witness :
    (TenantsService.update
        ⟨[{ id := 0, name := "Acme", subdomain := "acme", domain := none,
            schemaName := "tenant_acme", status := TenantStatus.active, isActive := true,
            deletedAt := none }], 1⟩ 0
        { subdomain := some "acme-renamed" }).1.tenants.map
        (fun u => (u.id, u.schemaName)) = [(0, "tenant_acme")] ∧
    ∀ t2, (TenantsService.update
        ⟨[{ id := 0, name := "Acme", subdomain := "acme", domain := none,
            schemaName := "tenant_acme", status := TenantStatus.active, isActive := true,
            deletedAt := none }], 1⟩ 0
        { subdomain := some "acme-renamed" }).2 = UpdateResult.success t2 →
      t2.schemaName = "tenant_acme" := by
  have h := schemaName_immutable
    ⟨[{ id := 0, name := "Acme", subdomain := "acme", domain := none,
        schemaName := "tenant_acme", status := TenantStatus.active, isActive := true,
        deletedAt := none }], 1⟩ (by simp [Directory.idsNodup]) 0
    { subdomain := some "acme-renamed" }
  refine ⟨h.1, ?_⟩
  intro t2 hsucc
  exact h.2.2.2
    { id := 0, name := "Acme", subdomain := "acme", domain := none,
      schemaName := "tenant_acme", status := TenantStatus.active, isActive := true,
      deletedAt := none } t2 (by decide) hsucc

/-- After saving a row that keeps the id of the row a search found and
itself satisfies the search predicate, the search finds the saved row. -/
lemma find?_saveExisting_map (l : List Tenant) (p : Tenant → Bool) (t t' : Tenant)
    (hf : l.find? p = some t) (hid : t'.id = t.id) (hp : p t' = true) :
    (l.map (fun u => if u.id == t'.id then t' else u)).find? p = some t' := by
  induction l with
  | nil => simp at hf
  | cons a l ih =>
    rw [List.find?_cons] at hf
    cases hpa : p a with
    | true =>
      rw [hpa] at hf
      simp only at hf
      have hat : a = t := by injection hf
      have h1 : (a.id == t'.id) = true := by simp [hat, hid]
      rw [List.map_cons, if_pos h1, List.find?_cons, hp]
    | false =>
      rw [hpa] at hf
      simp only at hf
      by_cases hb : a.id = t'.id
      · have h1 : (a.id == t'.id) = true := by simp [hb]
        rw [List.map_cons, if_pos h1, List.find?_cons, hp]
      · have h1 : ¬((a.id == t'.id) = true) := by simp [hb]
        rw [List.map_cons, if_neg h1, List.find?_cons, hpa]
        exact ih hf

/-- Amended C1: the guard rejects a resolved tenant with an authorization
error exactly when `isActive` is false; it never consults `status`, so a
resolved tenant with `isActive = true` is accepted and attached even when
its status is not `ACTIVE`.  A missing identifier is a validation error,
and a tenant that went through `suspend` is rejected afterwards because
`suspend` sets `isActive := false`. -/
theorem tenantGuard_rejects_iff_inactive (dir : Directory) (id : Nat) (t : Tenant)
    (h : TenantService.findById dir id = some t) :
    TenantGuard.canActivate dir none = GuardOutcome.validationError ∧
    (t.isActive = false →
      TenantGuard.canActivate dir (some id) = GuardOutcome.authorizationError) ∧
    (t.isActive = true →
      TenantGuard.canActivate dir (some id) = GuardOutcome.allowed t) ∧
    ∀ dir2 t2, TenantsService.suspend dir id = (dir2, some t2) →
      t2.isActive = false ∧ t2.status = TenantStatus.suspended ∧
      TenantGuard.canActivate dir2 (some id) = GuardOutcome.authorizationError := by
  have hfind : dir.findOne id = some t := h
  refine ⟨rfl, ?_, ?_, ?_⟩
  · intro hia
    simp [TenantGuard.canActivate, TenantService.findById, hfind, hia]
  · intro hia
    simp [TenantGuard.canActivate, TenantService.findById, hfind, hia]
  · intro dir2 t2 hs
    simp only [TenantsService.suspend, hfind, Prod.mk.injEq, Option.some.injEq] at hs
    obtain ⟨hdir2, ht2⟩ := hs
    have hfindRaw : dir.tenants.find? (fun u => u.deletedAt == none && u.id == id) =
        some t := h
    have hpt := List.find?_some hfindRaw
    have hpt2 : (fun u : Tenant => u.deletedAt == none && u.id == id)
        { t with status := TenantStatus.suspended, isActive := false } = true := by
      simpa using hpt
    have hfind2 : dir2.findOne id =
        some { t with status := TenantStatus.suspended, isActive := false } := by
      rw [← hdir2]
      exact find?_saveExisting_map dir.tenants _ t _ hfindRaw rfl hpt2
    refine ⟨by rw [← ht2], by rw [← ht2], ?_⟩
    simp [TenantGuard.canActivate, TenantService.findById, hfind2]

/-- Witness for the amended C1: the guard rejects the suspended `acme`
tenant (isActive false). -/
theorem tenantGuard_rejects_iff_inactive_witness :
    TenantGuard.canActivate
      ⟨[{ id := 0, name := "Acme", subdomain := "acme", domain := none,
          schemaName := "tenant_acme", status := TenantStatus.suspended, isActive := false,
          deletedAt := none }], 1⟩ (some 0) = GuardOutcome.authorizationError :=
  (tenantGuard_rejects_iff_inactive
    ⟨[{ id := 0, name := "Acme", subdomain := "acme", domain := none,
        schemaName := "tenant_acme", status := TenantStatus.suspended, isActive := false,
        deletedAt := none }], 1⟩ 0
    { id := 0, name := "Acme", subdomain := "acme", domain := none,
      schemaName := "tenant_acme", status := TenantStatus.suspended, isActive := false,
      deletedAt := none } (by decide)).2.1 rfl

/-- Counterexample to C1 as stated: a tenant whose status is `PENDING`
(not `ACTIVE`) but whose `isActive` flag is true is accepted by the guard
and attached to the request, instead of being rejected with an
authorization error. -/
theorem tenantGuard_accepts_pending_counterexample :
    TenantGuard.canActivate
      ⟨[{ id := 0, name := "Acme", subdomain := "acme", domain := none,
          schemaName := "tenant_acme", status := TenantStatus.pending, isActive := true,
          deletedAt := none }], 1⟩ (some 0) =
      GuardOutcome.allowed
        { id := 0, name := "Acme", subdomain := "acme", domain := none,
          schemaName := "tenant_acme", status := TenantStatus.pending, isActive := true,
          deletedAt := none } ∧
    ({ id := 0, name := "Acme", subdomain := "acme", domain := none,
       schemaName := "tenant_acme", status := TenantStatus.pending, isActive := true,
       deletedAt := none } : Tenant).status ≠ TenantStatus.active := by
  constructor
  · rfl
  · decide

/-- Counterexample to C2 as stated: in the interleaving where caller B
runs its cache check after caller A started but before A finished
initializing, both callers complete a physical connection establishment
(the counter reaches 2, not 1) and they receive distinct handles. -/
theorem getTenantConnection_concurrent_double_init :
    (runSchedule "tenant_acme" initialConcState [false, true, false, true]).initCount = 2 ∧
    (runSchedule "tenant_acme" initialConcState [false, true, false, true]).pcA.result =
      some { connId := 0, isInitialized := true } ∧
    (runSchedule "tenant_acme" initialConcState [false, true, false, true]).pcB.result =
      some { connId := 1, isInitialized := true } ∧
    (runSchedule "tenant_acme" initialConcState [false, true, false, true]).pcA.result ≠
      (runSchedule "tenant_acme" initialConcState [false, true, false, true]).pcB.result := by
  decide

/-- Amended C2: `getTenantConnection` has no single-flight guard — the
cache check and the map write sit on opposite sides of the awaited
initialization.  Across all interleavings of two callers on the same
never-before-cached schema: only when one call runs to completion before
the other starts is a single physical connection established and shared;
in every overlapping interleaving both callers establish their own
connection (two establishments) and receive distinct handles. -/
theorem getTenantConnection_not_single_flight (sched : List Bool)
    (h : sched ∈ twoCallerSchedules) :
    (isSequential sched = true →
      (runSchedule "tenant_acme" initialConcState sched).initCount = 1 ∧
      (runSchedule "tenant_acme" initialConcState sched).pcA.result =
        (runSchedule "tenant_acme" initialConcState sched).pcB.result ∧
      (runSchedule "tenant_acme" initialConcState sched).pcA.result.isSome = true) ∧
    (isSequential sched = false →
      (runSchedule "tenant_acme" initialConcState sched).initCount = 2 ∧
      (runSchedule "tenant_acme" initialConcState sched).pcA.result ≠
        (runSchedule "tenant_acme" initialConcState sched).pcB.result) := by
  simp only [twoCallerSchedules, List.mem_cons, List.not_mem_nil, or_false] at h
  rcases h with rfl | rfl | rfl | rfl | rfl | rfl <;> decide

/-- Witness for the amended C2 at the sequential schedule: one
establishment, shared handle. -/
theorem getTenantConnection_not_single_flight_witness :
    (runSchedule "tenant_acme" initialConcState [false, false, true, true]).initCount = 1 ∧
    (runSchedule "tenant_acme" initialConcState [false, false, true, true]).pcA.result =
      (runSchedule "tenant_acme" initialConcState [false, false, true, true]).pcB.result := by
  have h := getTenantConnection_not_single_flight [false, false, true, true] (by decide)
  have h2 := h.1 (by decide)
  exact ⟨h2.1, h2.2.1⟩
